import Mathlib

/-!
Verification of the scan-solve orchestration core of sudoku-buster
(`src/index.js`).

The orchestrator is a browser event loop: `onVideoClick` starts the webcam,
then repeatedly captures a frame, recognizes digits (`scanPuzzle`), applies
the minimum-clue and constraint gates, solves, and on a unique solution
renders it and persists telemetry.  We embed this loop as pure state
transitions.  The collaborators that live outside the orchestration file
(webcam, recognition model, solver, DOM) are modelled as per-frame oracles
describing the value they return or the exception they throw; the
orchestration logic itself — gate order, error classification, break/continue
decisions, telemetry payloads — is translated line by line from
`processImage`, `onVideoClick`, `onCancel`, `logPerformanceMetrics` and
`saveScanMetrics`.  Wall-clock quantities (`performance.now` durations,
timestamps) are not modelled; mark names and their order are.
-/

namespace SudokuBuster

/-- Display modes of the UI collaborator (`UI.DISPLAY_MODE_*`):
exactly one of instructions / video / solution is active. -/
inductive DisplayMode
  | instructions
  | video
  | solution
deriving DecidableEq, Repr

/-- One recognized digit: the grid cell it occupies (row-major index 0..80)
and the digit value 1..9. -/
structure DigitPrediction where
  index : Nat
  digit : Nat
deriving DecidableEq, Repr

/-- The per-frame output of the recognition collaborator: one entry per
populated cell. -/
abbrev DigitPredictions := List DigitPrediction

/-- A solved grid, as returned by the solver collaborator. -/
abbrev Solution := List Nat

/-- Row of a row-major cell index. -/
def rowOf (i : Nat) : Nat := i / 9

/-- Column of a row-major cell index. -/
def colOf (i : Nat) : Nat := i % 9

/-- 3×3 box of a row-major cell index. -/
def boxOf (i : Nat) : Nat := (i / 27) * 3 + (i % 9) / 3

/-- Two predictions conflict when they carry the same digit and share a
row, column or 3×3 box. -/
def conflicts (a b : DigitPrediction) : Bool :=
  a.digit == b.digit &&
    (rowOf a.index == rowOf b.index || colOf a.index == colOf b.index ||
      boxOf a.index == boxOf b.index)

/-- Modelled from the spec: `satisfiesAllConstraints` is imported from
`./puzzle`, which is not part of the orchestration source; the spec defines
the constraint gate as "no repeated digit in any row, column, or 3×3 box".
We model it as the absence of any pairwise conflict. -/
def satisfiesAllConstraints : DigitPredictions → Bool
  | [] => true
  | d :: rest => rest.all (fun e => !(conflicts d e)) && satisfiesAllConstraints rest

/-- A DigitPredictions sequence violates row/column/box uniqueness when two
of its entries conflict. -/
def ViolatesUniqueness (dps : DigitPredictions) : Prop :=
  ∃ i j : Fin dps.length, i < j ∧ conflicts (dps.get i) (dps.get j) = true

instance (dps : DigitPredictions) : Decidable (ViolatesUniqueness dps) := by
  unfold ViolatesUniqueness; infer_instance

/-- Outcome of calling the recognition collaborator (`scanPuzzle`) on one
frame: digit predictions, or a thrown error that is either the expected
scan exception (`error.isScanException`) or unexpected. -/
inductive ScanOutcome
  | ok (dps : DigitPredictions)
  | scanException (msg : String)
  | unexpected (msg : String)
deriving DecidableEq, Repr

/-- Everything the external collaborators contribute to one frame's
`processImage` call: the recognition outcome, what
`solve(puzzle, numSolutions 1)` returns, whether `UI.drawPuzzle` throws,
and the frame's snapshot data URL. -/
structure FrameOracle where
  scan : ScanOutcome
  solveResult : List Solution
  drawFailure : Option String
  imageDataURL : String
deriving DecidableEq, Repr

/-- Effects of one `processImage` call: the returned value (a snapshot and
solution, or nothing), whether the solver collaborator was invoked, the
`performance.mark` entries recorded, the display-mode switch issued, the
solution handed to `UI.drawPuzzle`, and the error-log / error-panel calls. -/
structure ProcessResult where
  result : Option (String × Solution)
  solverInvoked : Bool
  marks : List String
  displayModeSet : Option DisplayMode
  drawn : Option Solution
  errorLogged : List String
  panelShown : List String
deriving DecidableEq, Repr

/-- Embedding of `processImage`: scan, mark, minimum-clue gate, constraint
gate, solve, uniqueness gate, render; any thrown error is caught, logged,
and shown on the error panel unless it is a scan exception. -/
def processImage (o : FrameOracle) : ProcessResult :=
  match o.scan with
  | .scanException msg =>
      { result := none, solverInvoked := false, marks := [],
        displayModeSet := none, drawn := none,
        errorLogged := ["[processImage] " ++ msg], panelShown := [] }
  | .unexpected msg =>
      { result := none, solverInvoked := false, marks := [],
        displayModeSet := none, drawn := none,
        errorLogged := ["[processImage] " ++ msg], panelShown := [msg] }
  | .ok dps =>
      if dps.length < 17 then
        { result := none, solverInvoked := false, marks := ["scanPuzzle"],
          displayModeSet := none, drawn := none,
          errorLogged := [], panelShown := [] }
      else if !(satisfiesAllConstraints dps) then
        { result := none, solverInvoked := false, marks := ["scanPuzzle"],
          displayModeSet := none, drawn := none,
          errorLogged := [], panelShown := [] }
      else
        let solutions := o.solveResult
        if solutions.length ≠ 1 then
          { result := none, solverInvoked := true,
            marks := ["scanPuzzle", "satisfiesAllConstraints", "solve"],
            displayModeSet := none, drawn := none,
            errorLogged := [], panelShown := [] }
        else
          match o.drawFailure with
          | some msg =>
              { result := none, solverInvoked := true,
                marks := ["scanPuzzle", "satisfiesAllConstraints", "solve"],
                displayModeSet := some .solution, drawn := none,
                errorLogged := ["[processImage] " ++ msg], panelShown := [msg] }
          | none =>
              { result := some (o.imageDataURL, solutions.headI),
                solverInvoked := true,
                marks := ["scanPuzzle", "satisfiesAllConstraints", "solve",
                  "drawPuzzle"],
                displayModeSet := some .solution, drawn := some solutions.headI,
                errorLogged := [], panelShown := [] }

/-- One telemetry upload issued by `saveScanMetrics`: the outcome string,
the session's frame count, the retained slice `markss.slice(-100)` of the
mark log, and the optional snapshot and solution. -/
structure PersistCall where
  outcome : String
  frameCount : Nat
  markssPayload : List (List String)
  imageDataURL : Option String
  solution : Option Solution
deriving DecidableEq, Repr

/-- Observable state of the application: the webcam liveness flag, the
active display mode, the cancel control, the session counters
(`frameCount`, `markss`), the telemetry uploads issued so far, the error
panel, the solutions handed to `UI.drawPuzzle`, and the info/error logs. -/
structure AppState where
  webcamStarted : Bool
  displayMode : DisplayMode
  cancelButtonVisible : Bool
  frameCount : Nat
  markss : List (List String)
  persisted : List PersistCall
  panelMessage : Option String
  panelShownLog : List String
  drawnSolutions : List Solution
  infoLog : List String
  errorLog : List String
deriving DecidableEq, Repr

/-- The `showErrorPanel` collaborator: display the message (and record the
call). -/
def showErrorPanelOn (msg : String) (st : AppState) : AppState :=
  { st with panelMessage := some msg, panelShownLog := st.panelShownLog ++ [msg] }

/-- The trailing `n` elements of a list, as `Array.prototype.slice(-n)`
keeps the most recent `n` entries. -/
def lastN (n : Nat) (l : List α) : List α := l.drop (l.length - n)

/-- Embedding of `saveScanMetrics`: issue one telemetry upload carrying the
outcome, the frame count, the most recent 100 mark sets, and the optional
snapshot and solution.  Transport failures only log and are not modelled. -/
def saveScanMetrics (outcome : String) (img : Option String)
    (sol : Option Solution) (st : AppState) : AppState :=
  { st with
      persisted := st.persisted ++
        [{ outcome := outcome, frameCount := st.frameCount,
           markssPayload := lastN 100 st.markss,
           imageDataURL := img, solution := sol }] }

/-- Embedding of `logPerformanceMetrics`: read this iteration's marks; when
none exist return untouched, otherwise increment the frame counter and
append the mark set to the session log. -/
def logPerformanceMetrics (marks : List String) (st : AppState) : AppState :=
  if marks.isEmpty then st
  else { st with frameCount := st.frameCount + 1, markss := st.markss ++ [marks] }

/-- Embedding of `onCancel`: restore the instructions view, hide the cancel
control, stop the webcam, and persist outcome `cancelled`. -/
def onCancel (st : AppState) : AppState :=
  saveScanMetrics "cancelled" none none
    { st with
        displayMode := .instructions,
        cancelButtonVisible := false,
        webcamStarted := false }

/-- What `captureWebcam` does on one scheduler tick: return no image data
(device stopped), throw, or produce a frame whose downstream collaborator
behavior is described by a `FrameOracle`. -/
inductive CaptureOutcome
  | absent
  | failure (msg : String)
  | image (o : FrameOracle)
deriving DecidableEq, Repr

/-- One event at an iteration boundary of the scan loop: either the user
clicked the cancel control during the preceding `tf.nextFrame()` suspension,
or the loop body runs on the next captured frame. -/
inductive IterationEvent
  | cancel
  | frame (c : CaptureOutcome)
deriving DecidableEq, Repr

/-- Result of one pass through the `while` body of `onVideoClick`: the
updated state, whether the body executed `break`, and the `result` value
assigned by `processImage`. -/
structure IterationResult where
  state : AppState
  brk : Bool
  result : Option (String × Solution)
deriving DecidableEq, Repr

/-- Embedding of one pass through the scan-loop body: clear the marks,
capture a frame (mark `captureWebcam`), break when no image data is
available, otherwise run `processImage`; errors thrown by the capture are
caught, logged and shown on the error panel; the `finally` block always
runs `logPerformanceMetrics` on the marks recorded so far. -/
def runIteration (c : CaptureOutcome) (st : AppState) : IterationResult :=
  match c with
  | .absent =>
      { state := logPerformanceMetrics ["captureWebcam"] st,
        brk := true, result := none }
  | .failure msg =>
      let st := { st with errorLog := st.errorLog ++ ["[onVideoClick] " ++ msg] }
      let st := showErrorPanelOn msg st
      { state := logPerformanceMetrics [] st, brk := false, result := none }
  | .image o =>
      let pr := processImage o
      let st := { st with errorLog := st.errorLog ++ pr.errorLogged }
      let st := pr.panelShown.foldl (fun s m => showErrorPanelOn m s) st
      let st :=
        match pr.displayModeSet with
        | some m => { st with displayMode := m }
        | none => st
      let st :=
        match pr.drawn with
        | some sol => { st with drawnSolutions := st.drawnSolutions ++ [sol] }
        | none => st
      let st := logPerformanceMetrics ("captureWebcam" :: pr.marks) st
      match pr.result with
      | some r => { state := st, brk := true, result := some r }
      | none => { state := st, brk := false, result := none }

/-- Embedding of the `while (isWebcamStarted())` scan loop, driven by a
finite script of iteration-boundary events; returns the final state and the
`result` value the loop exited with (if it exited via `break` on success). -/
def runLoop : List IterationEvent → AppState → AppState × Option (String × Solution)
  | [], st => (st, none)
  | ev :: rest, st =>
      if st.webcamStarted then
        match ev with
        | .cancel => runLoop rest (onCancel st)
        | .frame c =>
            let r := runIteration c st
            if r.brk then (r.state, r.result) else runLoop rest r.state
      else (st, none)

/-- Embedding of the tail of `onVideoClick`: run the scan loop, then, when
it exited with a result and the webcam is still started, hide the cancel
control, stop the webcam, and persist outcome `completed` with the snapshot
and the solution. -/
def videoLoopAndFinish (events : List IterationEvent) (st : AppState) : AppState :=
  let r := runLoop events st
  match r.2 with
  | some res =>
      if r.1.webcamStarted then
        saveScanMetrics "completed" (some res.1) (some res.2)
          { r.1 with cancelButtonVisible := false, webcamStarted := false }
      else r.1
  | none => r.1

/-- Embedding of `onVideoClick`: bail with a logged notice when the webcam
is already started; otherwise hide the error panel, reset the session
counters, start the webcam (surfacing a `DeviceError` on failure without
entering the loop), switch to the video view, show the cancel control, and
run the scan loop to completion. -/
def onVideoClick (startFailure : Option String) (events : List IterationEvent)
    (st : AppState) : AppState :=
  if st.webcamStarted then
    { st with infoLog := st.infoLog ++ ["[onVideoClick] webcam already started - bailing"] }
  else
    let st := { st with panelMessage := none, frameCount := 0, markss := [] }
    match startFailure with
    | some msg =>
        showErrorPanelOn msg
          { st with errorLog := st.errorLog ++ ["[onVideoClick] " ++ msg] }
    | none =>
        videoLoopAndFinish events
          { st with
              webcamStarted := true,
              displayMode := .video,
              cancelButtonVisible := true }

/-- The application state after startup: webcam off, instructions view,
empty session counters and logs. -/
def initialState : AppState :=
  { webcamStarted := false, displayMode := .instructions,
    cancelButtonVisible := false, frameCount := 0, markss := [],
    persisted := [], panelMessage := none, panelShownLog := [],
    drawnSolutions := [], infoLog := [], errorLog := [] }

/-- A state in the middle of a scan session: webcam on, video view, cancel
control shown. -/
def loopingState : AppState :=
  { initialState with
      webcamStarted := true, displayMode := .video, cancelButtonVisible := true }

/-- Digit of cell `i` in one fixed valid completed Sudoku grid, used to
build concrete conflict-free clue sets. -/
def baseDigit (i : Nat) : Nat :=
  ((i % 9) + 3 * ((i / 9) % 3) + ((i / 9) / 3)) % 9 + 1

/-- The first `n` cells of the fixed valid grid, as digit predictions. -/
def clues (n : Nat) : DigitPredictions :=
  (List.range n).map (fun i => ⟨i, baseDigit i⟩)

/-- A frame whose recognition yields only 16 digits. -/
def sixteenClueOracle : FrameOracle :=
  { scan := .ok (clues 16), solveResult := [], drawFailure := none,
    imageDataURL := "frame16" }

/-- Seventeen predictions two of which put digit 5 twice in row 0. -/
def conflictingPredictions : DigitPredictions :=
  ⟨0, 5⟩ :: ⟨1, 5⟩ :: clues 15

/-- A frame whose recognized digits conflict in row 0. -/
def conflictingOracle : FrameOracle :=
  { scan := .ok conflictingPredictions, solveResult := [], drawFailure := none,
    imageDataURL := "frameConflict" }

/-- A frame with 17 conflict-free clues for which the solver finds no
solution. -/
def zeroSolutionsOracle : FrameOracle :=
  { scan := .ok (clues 17), solveResult := [], drawFailure := none,
    imageDataURL := "frame17" }

/-- A conflict-free sequence of predictions is pairwise conflict-free. -/
theorem satisfiesAllConstraints_pairwise (dps : DigitPredictions)
    (h : satisfiesAllConstraints dps = true) :
    dps.Pairwise (fun a b => conflicts a b = false) := by
  induction dps with
  | nil => simp
  | cons d rest ih =>
      simp only [satisfiesAllConstraints, Bool.and_eq_true, List.all_eq_true] at h
      refine List.Pairwise.cons ?_ (ih h.2)
      intro e he
      simpa using h.1 e he

/-- A sequence with two conflicting predictions fails the constraint check. -/
theorem violates_satisfiesAllConstraints_false (dps : DigitPredictions)
    (hviol : ViolatesUniqueness dps) : satisfiesAllConstraints dps = false := by
  cases hsc : satisfiesAllConstraints dps with
  | false => rfl
  | true =>
      exfalso
      have hpw := satisfiesAllConstraints_pairwise dps hsc
      obtain ⟨i, j, hij, hc⟩ := hviol
      rw [List.pairwise_iff_get] at hpw
      rw [hpw i j hij] at hc
      exact Bool.false_ne_true hc

/-- C2: when recognition yields fewer than 17 digits, `processImage`
returns without invoking the solver and without producing a result, so the
loop proceeds to the next frame. -/
theorem minimumClueGate (o : FrameOracle) (dps : DigitPredictions)
    (hscan : o.scan = .ok dps) (hlen : dps.length < 17) :
    (processImage o).solverInvoked = false ∧ (processImage o).result = none := by
  unfold processImage
  rw [hscan]
  simp [hlen]

/-- Witness for C2 on a concrete 16-clue frame. -/
theorem minimumClueGate_witness :
    (processImage sixteenClueOracle).solverInvoked = false ∧
      (processImage sixteenClueOracle).result = none :=
  minimumClueGate sixteenClueOracle (clues 16) rfl (by decide)

/-- C3: when the recognized digits violate row/column/box uniqueness,
`processImage` returns without invoking the solver and without producing a
result, so the loop continues scanning. -/
theorem constraintGate (o : FrameOracle) (dps : DigitPredictions)
    (hscan : o.scan = .ok dps) (hviol : ViolatesUniqueness dps) :
    (processImage o).solverInvoked = false ∧ (processImage o).result = none := by
  have hfalse := violates_satisfiesAllConstraints_false dps hviol
  unfold processImage
  rw [hscan]
  by_cases hlen : dps.length < 17 <;> simp [hlen, hfalse]

/-- Witness for C3 on a concrete frame with a duplicated 5 in row 0. -/
theorem constraintGate_witness :
    (processImage conflictingOracle).solverInvoked = false ∧
      (processImage conflictingOracle).result = none :=
  constraintGate conflictingOracle conflictingPredictions rfl (by decide)

/-- C4: when the solver returns a solution count other than exactly 1, the
iteration neither breaks the loop nor produces a result, and leaves the
display mode, the rendered solutions and the persisted outcomes untouched:
no transition to success, no surfaced solution. -/
theorem uniquenessGate (o : FrameOracle) (dps : DigitPredictions) (st : AppState)
    (hscan : o.scan = .ok dps) (hcount : o.solveResult.length ≠ 1) :
    (runIteration (.image o) st).brk = false ∧
      (runIteration (.image o) st).result = none ∧
      (runIteration (.image o) st).state.displayMode = st.displayMode ∧
      (runIteration (.image o) st).state.drawnSolutions = st.drawnSolutions ∧
      (runIteration (.image o) st).state.persisted = st.persisted := by
  have h1 : (processImage o).result = none ∧ (processImage o).displayModeSet = none ∧
      (processImage o).drawn = none ∧ (processImage o).panelShown = [] := by
    unfold processImage
    rw [hscan]
    by_cases hlen : dps.length < 17
    · simp [hlen]
    · by_cases hcon : satisfiesAllConstraints dps <;> simp [hlen, hcon, hcount]
  obtain ⟨hr, hd, hdr, hp⟩ := h1
  simp only [runIteration]
  rw [hr, hd, hdr, hp]
  simp [logPerformanceMetrics]

/-- Witness for C4 on a concrete 17-clue frame with zero solver solutions. -/
theorem uniquenessGate_witness :
    (runIteration (.image zeroSolutionsOracle) loopingState).brk = false ∧
      (runIteration (.image zeroSolutionsOracle) loopingState).result = none ∧
      (runIteration (.image zeroSolutionsOracle) loopingState).state.displayMode =
        loopingState.displayMode ∧
      (runIteration (.image zeroSolutionsOracle) loopingState).state.drawnSolutions =
        loopingState.drawnSolutions ∧
      (runIteration (.image zeroSolutionsOracle) loopingState).state.persisted =
        loopingState.persisted :=
  uniquenessGate zeroSolutionsOracle (clues 17) loopingState rfl (by decide)

/-- A frame on which recognition throws the expected scan exception. -/
def scanExceptionOracle : FrameOracle :=
  { scan := .scanException "no puzzle found", solveResult := [],
    drawFailure := none, imageDataURL := "" }

/-- C7: clicking the video view while the webcam is already started is a
no-op apart from a logged informational notice: no state change, no error,
at most one active session. -/
theorem reentrantStartGuard (startFailure : Option String)
    (events : List IterationEvent) (st : AppState)
    (h : st.webcamStarted = true) :
    onVideoClick startFailure events st =
      { st with
          infoLog := st.infoLog ++ ["[onVideoClick] webcam already started - bailing"] } := by
  unfold onVideoClick
  simp [h]

/-- Witness for C7: a second start attempt during a live session. -/
theorem reentrantStartGuard_witness :
    onVideoClick none [] loopingState =
      { loopingState with
          infoLog := loopingState.infoLog ++
            ["[onVideoClick] webcam already started - bailing"] } :=
  reentrantStartGuard none [] loopingState rfl

/-- C8: a cancel issued at an iteration boundary of a live session takes
effect within that one boundary: no later event of the script is processed,
the loop exits without a success result, the view returns to instructions,
the cancel control is hidden, the webcam stops, and outcome `cancelled` is
persisted. -/
theorem cancelWithinOneIteration (events : List IterationEvent) (st : AppState)
    (h : st.webcamStarted = true) :
    runLoop (.cancel :: events) st = (onCancel st, none) ∧
      videoLoopAndFinish (.cancel :: events) st = onCancel st ∧
      (onCancel st).displayMode = .instructions ∧
      (onCancel st).cancelButtonVisible = false ∧
      (onCancel st).webcamStarted = false ∧
      (onCancel st).persisted = st.persisted ++
        [{ outcome := "cancelled", frameCount := st.frameCount,
           markssPayload := lastN 100 st.markss,
           imageDataURL := none, solution := none }] := by
  have hstop : (onCancel st).webcamStarted = false := rfl
  have hloop : runLoop (.cancel :: events) st = (onCancel st, none) := by
    unfold runLoop
    rw [h]
    simp only [if_true]
    cases events with
    | nil => rfl
    | cons e rest =>
        unfold runLoop
        rw [hstop]
        simp
  refine ⟨hloop, ?_, rfl, rfl, rfl, rfl⟩
  unfold videoLoopAndFinish
  rw [hloop]

/-- Witness for C8: cancelling a live session ahead of a pending frame. -/
theorem cancelWithinOneIteration_witness :
    runLoop (.cancel :: [.frame (.image sixteenClueOracle)]) loopingState =
        (onCancel loopingState, none) ∧
      videoLoopAndFinish (.cancel :: [.frame (.image sixteenClueOracle)])
          loopingState = onCancel loopingState ∧
      (onCancel loopingState).displayMode = .instructions ∧
      (onCancel loopingState).cancelButtonVisible = false ∧
      (onCancel loopingState).webcamStarted = false ∧
      (onCancel loopingState).persisted = loopingState.persisted ++
        [{ outcome := "cancelled", frameCount := loopingState.frameCount,
           markssPayload := lastN 100 loopingState.markss,
           imageDataURL := none, solution := none }] :=
  cancelWithinOneIteration [.frame (.image sixteenClueOracle)] loopingState rfl

/-- C5 counterexample: a concrete scan exception IS written to the error
log (`log.error` runs before the `isScanException` test), contradicting
"it is not logged as an error". -/
theorem scanExceptionNotLogged_counterexample :
    (runIteration (.image scanExceptionOracle) loopingState).state.errorLog =
        ["[processImage] no puzzle found"] ∧
      loopingState.errorLog = [] := by
  exact ⟨rfl, rfl⟩

/-- C5 as amended: an expected scan exception never reaches the user (error
panel untouched), never persists an outcome, and lets the loop continue to
the next frame — but it is written to the error log. -/
theorem scanExceptionSwallowed (o : FrameOracle) (msg : String) (st : AppState)
    (hscan : o.scan = .scanException msg) :
    (runIteration (.image o) st).brk = false ∧
      (runIteration (.image o) st).state.panelShownLog = st.panelShownLog ∧
      (runIteration (.image o) st).state.panelMessage = st.panelMessage ∧
      (runIteration (.image o) st).state.errorLog =
        st.errorLog ++ ["[processImage] " ++ msg] ∧
      (runIteration (.image o) st).state.persisted = st.persisted ∧
      (runIteration (.image o) st).state.webcamStarted = st.webcamStarted := by
  have hpr : processImage o =
      { result := none, solverInvoked := false, marks := [],
        displayModeSet := none, drawn := none,
        errorLogged := ["[processImage] " ++ msg], panelShown := [] } := by
    unfold processImage
    rw [hscan]
  simp [runIteration, hpr, logPerformanceMetrics]

/-- Witness for C5 as amended, on the concrete scan-exception frame. -/
theorem scanExceptionSwallowed_witness :
    (runIteration (.image scanExceptionOracle) loopingState).brk = false ∧
      (runIteration (.image scanExceptionOracle) loopingState).state.panelShownLog =
        loopingState.panelShownLog ∧
      (runIteration (.image scanExceptionOracle) loopingState).state.panelMessage =
        loopingState.panelMessage ∧
      (runIteration (.image scanExceptionOracle) loopingState).state.errorLog =
        loopingState.errorLog ++ ["[processImage] " ++ "no puzzle found"] ∧
      (runIteration (.image scanExceptionOracle) loopingState).state.persisted =
        loopingState.persisted ∧
      (runIteration (.image scanExceptionOracle) loopingState).state.webcamStarted =
        loopingState.webcamStarted :=
  scanExceptionSwallowed scanExceptionOracle "no puzzle found" loopingState rfl

/-- The full fixed valid grid, used as a concrete solver answer. -/
def fullSolution : Solution := (List.range 81).map baseDigit

/-- A frame with 30 conflict-free clues for which the solver reports
exactly one solution. -/
def thirtyClueOracle : FrameOracle :=
  { scan := .ok (clues 30), solveResult := [fullSolution],
    drawFailure := none, imageDataURL := "snapshot30" }

/-- A frame on which recognition throws an unexpected (non-scan) error. -/
def unexpectedOracle : FrameOracle :=
  { scan := .unexpected "model failed", solveResult := [],
    drawFailure := none, imageDataURL := "" }

/-- C9: a frame passing both gates whose puzzle the solver answers with
exactly one solution ends the session successfully: the view switches to
`solution`, the solution is rendered, the cancel control is hidden, the
webcam stops, and outcome `completed` is persisted with the frame snapshot
and the solution. -/
theorem successScenario (o : FrameOracle) (dps : DigitPredictions)
    (sol : Solution) (st : AppState) (hscan : o.scan = .ok dps)
    (hlen : ¬ dps.length < 17) (hcon : satisfiesAllConstraints dps = true)
    (hsol : o.solveResult = [sol]) (hdraw : o.drawFailure = none)
    (hw : st.webcamStarted = true) :
    (videoLoopAndFinish [.frame (.image o)] st).displayMode = .solution ∧
      (videoLoopAndFinish [.frame (.image o)] st).drawnSolutions =
        st.drawnSolutions ++ [sol] ∧
      (videoLoopAndFinish [.frame (.image o)] st).cancelButtonVisible = false ∧
      (videoLoopAndFinish [.frame (.image o)] st).webcamStarted = false ∧
      (videoLoopAndFinish [.frame (.image o)] st).persisted =
        st.persisted ++
          [{ outcome := "completed", frameCount := st.frameCount + 1,
             markssPayload := lastN 100 (st.markss ++
               [["captureWebcam", "scanPuzzle", "satisfiesAllConstraints",
                 "solve", "drawPuzzle"]]),
             imageDataURL := some o.imageDataURL, solution := some sol }] := by
  have hpr : processImage o =
      { result := some (o.imageDataURL, sol), solverInvoked := true,
        marks := ["scanPuzzle", "satisfiesAllConstraints", "solve", "drawPuzzle"],
        displayModeSet := some .solution, drawn := some sol,
        errorLogged := [], panelShown := [] } := by
    unfold processImage
    rw [hscan]
    simp [hlen, hcon, hsol, hdraw]
  unfold videoLoopAndFinish runLoop
  rw [hw]
  simp only [if_true]
  simp [runIteration, hpr, logPerformanceMetrics, hw, saveScanMetrics]

/-- Witness for C9: a concrete frame with 30 valid clues and a unique
solver answer. -/
theorem successScenario_witness :
    (videoLoopAndFinish [.frame (.image thirtyClueOracle)] loopingState).displayMode =
        .solution ∧
      (videoLoopAndFinish [.frame (.image thirtyClueOracle)] loopingState).drawnSolutions =
        loopingState.drawnSolutions ++ [fullSolution] ∧
      (videoLoopAndFinish [.frame (.image thirtyClueOracle)] loopingState).cancelButtonVisible =
        false ∧
      (videoLoopAndFinish [.frame (.image thirtyClueOracle)] loopingState).webcamStarted =
        false ∧
      (videoLoopAndFinish [.frame (.image thirtyClueOracle)] loopingState).persisted =
        loopingState.persisted ++
          [{ outcome := "completed", frameCount := loopingState.frameCount + 1,
             markssPayload := lastN 100 (loopingState.markss ++
               [["captureWebcam", "scanPuzzle", "satisfiesAllConstraints",
                 "solve", "drawPuzzle"]]),
             imageDataURL := some thirtyClueOracle.imageDataURL,
             solution := some fullSolution }] :=
  successScenario thirtyClueOracle (clues 30) fullSolution loopingState rfl
    (by decide) (by decide) rfl rfl rfl

/-- C1 counterexample: after an unexpected recognition error in the first
iteration — surfaced on the error panel — the loop runs a second iteration
(the frame counter reaches 2) instead of stopping, refuting "the scan loop
stops". -/
theorem unexpectedErrorStops_counterexample :
    ((runLoop [.frame (.image unexpectedOracle), .frame (.image unexpectedOracle)]
          loopingState).1.panelShownLog = ["model failed", "model failed"] ∧
      (runLoop [.frame (.image unexpectedOracle), .frame (.image unexpectedOracle)]
          loopingState).1.frameCount = 2 ∧
      (runLoop [.frame (.image unexpectedOracle), .frame (.image unexpectedOracle)]
          loopingState).1.persisted = []) := by
  exact ⟨rfl, rfl, rfl⟩

/-- The unexpected (non-scan-exception) error thrown during one pass of the
loop body, when there is one: a capture failure, an unexpected recognition
error, or a render failure on the success path. -/
def unexpectedErrorOf (c : CaptureOutcome) : Option String :=
  match c with
  | .absent => none
  | .failure msg => some msg
  | .image o =>
      match o.scan with
      | .scanException _ => none
      | .unexpected msg => some msg
      | .ok dps =>
          if dps.length < 17 then none
          else if !(satisfiesAllConstraints dps) then none
          else if o.solveResult.length ≠ 1 then none
          else o.drawFailure

/-- C1 as amended: an iteration hitting an unexpected exception surfaces it
to the user via the error panel and persists no outcome, but the scan loop
does not stop: the iteration ends without a break and the webcam stays
live, so scanning proceeds to the next frame. -/
theorem unexpectedErrorSurfacedLoopContinues (c : CaptureOutcome) (msg : String)
    (st : AppState) (h : unexpectedErrorOf c = some msg) :
    (runIteration c st).brk = false ∧
      (runIteration c st).state.panelShownLog = st.panelShownLog ++ [msg] ∧
      (runIteration c st).state.panelMessage = some msg ∧
      (runIteration c st).state.persisted = st.persisted ∧
      (runIteration c st).state.webcamStarted = st.webcamStarted := by
  cases c with
  | absent => simp [unexpectedErrorOf] at h
  | failure m =>
      simp only [unexpectedErrorOf, Option.some.injEq] at h
      subst h
      simp [runIteration, logPerformanceMetrics, showErrorPanelOn]
  | image o =>
      cases hscan : o.scan with
      | scanException m => simp [unexpectedErrorOf, hscan] at h
      | unexpected m =>
          simp only [unexpectedErrorOf, hscan, Option.some.injEq] at h
          have hpr : processImage o =
              { result := none, solverInvoked := false, marks := [],
                displayModeSet := none, drawn := none,
                errorLogged := ["[processImage] " ++ m],
                panelShown := [m] } := by
            unfold processImage
            rw [hscan]
          rw [← h]
          simp [runIteration, hpr, logPerformanceMetrics, showErrorPanelOn]
      | ok dps =>
          simp only [unexpectedErrorOf, hscan] at h
          by_cases hlen : dps.length < 17
          · simp [hlen] at h
          · by_cases hcon : satisfiesAllConstraints dps
            · by_cases hone : o.solveResult.length ≠ 1
              · simp [hlen, hcon, hone] at h
              · simp only [hlen, hcon, hone, if_false, if_true, Bool.not_true,
                  ite_false, ite_true] at h
                have hdraw : o.drawFailure = some msg := by
                  simpa [hlen, hcon, hone] using h
                have hpr : processImage o =
                    { result := none, solverInvoked := true,
                      marks := ["scanPuzzle", "satisfiesAllConstraints", "solve"],
                      displayModeSet := some .solution, drawn := none,
                      errorLogged := ["[processImage] " ++ msg],
                      panelShown := [msg] } := by
                  unfold processImage
                  rw [hscan]
                  simp [hlen, hcon, hone, hdraw]
                simp [runIteration, hpr, logPerformanceMetrics, showErrorPanelOn]
            · simp [hlen, hcon] at h

/-- Witness for C1 as amended, on the concrete unexpected-error frame. -/
theorem unexpectedErrorSurfacedLoopContinues_witness :
    (runIteration (.image unexpectedOracle) loopingState).brk = false ∧
      (runIteration (.image unexpectedOracle) loopingState).state.panelShownLog =
        loopingState.panelShownLog ++ ["model failed"] ∧
      (runIteration (.image unexpectedOracle) loopingState).state.panelMessage =
        some "model failed" ∧
      (runIteration (.image unexpectedOracle) loopingState).state.persisted =
        loopingState.persisted ∧
      (runIteration (.image unexpectedOracle) loopingState).state.webcamStarted =
        loopingState.webcamStarted :=
  unexpectedErrorSurfacedLoopContinues (.image unexpectedOracle) "model failed"
    loopingState rfl

/-- The trailing slice keeps at most `n` elements. -/
theorem lastN_length_le (n : Nat) (l : List α) : (lastN n l).length ≤ n := by
  simp only [lastN, List.length_drop]
  omega

/-- `logPerformanceMetrics` never issues telemetry. -/
theorem logPerformanceMetrics_persisted (marks : List String) (st : AppState) :
    (logPerformanceMetrics marks st).persisted = st.persisted := by
  unfold logPerformanceMetrics
  split <;> rfl

/-- Showing error-panel messages touches only the panel fields. -/
theorem foldl_showErrorPanelOn_fields (msgs : List String) (st : AppState) :
    (msgs.foldl (fun s m => showErrorPanelOn m s) st).markss = st.markss ∧
      (msgs.foldl (fun s m => showErrorPanelOn m s) st).frameCount = st.frameCount ∧
      (msgs.foldl (fun s m => showErrorPanelOn m s) st).persisted = st.persisted ∧
      (msgs.foldl (fun s m => showErrorPanelOn m s) st).webcamStarted =
        st.webcamStarted := by
  induction msgs generalizing st with
  | nil => exact ⟨rfl, rfl, rfl, rfl⟩
  | cons m rest ih => simpa [showErrorPanelOn] using ih (showErrorPanelOn m st)

/-- No pass of the loop body issues telemetry: uploads come only from
`onCancel` and the completion epilogue. -/
theorem runIteration_persisted (c : CaptureOutcome) (st : AppState) :
    (runIteration c st).state.persisted = st.persisted := by
  cases c with
  | absent => simp [runIteration, logPerformanceMetrics_persisted]
  | failure m =>
      simp [runIteration, logPerformanceMetrics_persisted, showErrorPanelOn]
  | image o =>
      simp only [runIteration]
      split <;>
        · rw [logPerformanceMetrics_persisted]
          split <;> split <;>
            simp [(foldl_showErrorPanelOn_fields _ _).2.2.1]

/-- Every telemetry upload records at most 100 mark sets, given the
uploads so far do. -/
theorem saveScanMetrics_bounded (outcome : String) (img : Option String)
    (sol : Option Solution) (st : AppState)
    (h : ∀ p ∈ st.persisted, p.markssPayload.length ≤ 100) :
    ∀ p ∈ (saveScanMetrics outcome img sol st).persisted,
      p.markssPayload.length ≤ 100 := by
  intro p hp
  simp only [saveScanMetrics, List.mem_append, List.mem_singleton] at hp
  rcases hp with hp | hp
  · exact h p hp
  · subst hp
    exact lastN_length_le 100 st.markss

/-- The scan loop preserves the telemetry payload bound. -/
theorem runLoop_persisted_bounded (events : List IterationEvent) (st : AppState)
    (h : ∀ p ∈ st.persisted, p.markssPayload.length ≤ 100) :
    ∀ p ∈ (runLoop events st).1.persisted, p.markssPayload.length ≤ 100 := by
  induction events generalizing st with
  | nil => simpa [runLoop] using h
  | cons ev rest ih =>
      by_cases hw : st.webcamStarted
      · cases ev with
        | cancel =>
            simp only [runLoop, hw, if_true]
            refine ih _ ?_
            exact saveScanMetrics_bounded _ _ _ _ h
        | frame c =>
            simp only [runLoop, hw, if_true]
            split
            · intro p hp
              rw [runIteration_persisted] at hp
              exact h p hp
            · refine ih _ ?_
              rw [runIteration_persisted]
              exact h
      · simp only [runLoop, hw, if_false]
        exact h

/-- C6 as amended: the in-memory mark log is unbounded (see the
counterexample), but every telemetry record a session ever uploads retains
at most the most recent 100 mark sets. -/
theorem markLogBound (startFailure : Option String)
    (events : List IterationEvent) (st : AppState)
    (h : ∀ p ∈ st.persisted, p.markssPayload.length ≤ 100) :
    ∀ p ∈ (onVideoClick startFailure events st).persisted,
      p.markssPayload.length ≤ 100 := by
  unfold onVideoClick
  split
  · simpa using h
  · cases startFailure with
    | some msg => simpa [showErrorPanelOn] using h
    | none =>
        have hloop := runLoop_persisted_bounded events
          { st with
              panelMessage := none, frameCount := 0, markss := [],
              webcamStarted := true, displayMode := .video,
              cancelButtonVisible := true } (by simpa using h)
        simp only [videoLoopAndFinish]
        split
        · split
          · refine saveScanMetrics_bounded _ _ _ _ ?_
            simpa using hloop
          · exact hloop
        · exact hloop

/-- Witness for C6 as amended: a session that starts and is cancelled at
once uploads a single record, and it retains at most 100 mark sets. -/
theorem markLogBound_witness :
    (∀ p ∈ initialState.persisted, p.markssPayload.length ≤ 100) ∧
      ∀ p ∈ (onVideoClick none [.cancel] initialState).persisted,
        p.markssPayload.length ≤ 100 :=
  ⟨by simp [initialState],
    markLogBound none [.cancel] initialState (by simp [initialState])⟩

/-- Under repeated scan-exception frames the loop neither breaks nor stops
the webcam, and the in-memory mark log grows by one entry per frame. -/
theorem runLoop_scanException_growth (n : Nat) (st : AppState)
    (hw : st.webcamStarted = true) :
    ((runLoop (List.replicate n (.frame (.image scanExceptionOracle))) st).1).markss.length =
      st.markss.length + n := by
  induction n generalizing st with
  | zero => simp [runLoop]
  | succ k ih =>
      have hstep : runIteration (.image scanExceptionOracle) st =
          { state :=
              { st with
                  frameCount := st.frameCount + 1,
                  markss := st.markss ++ [["captureWebcam"]],
                  errorLog := st.errorLog ++ ["[processImage] no puzzle found"] },
            brk := false, result := none } := rfl
      rw [List.replicate_succ]
      simp only [runLoop, hw, if_true, hstep]
      rw [if_neg (by simp)]
      rw [ih _ rfl]
      simp only [List.length_append, List.length_singleton]
      omega

/-- C6 counterexample: after 101 frames of a session the in-memory mark
log holds 101 entries — the session's retained log exceeds 100. -/
theorem markLogBound_counterexample :
    100 < ((runLoop (List.replicate 101 (.frame (.image scanExceptionOracle)))
        loopingState).1).markss.length := by
  rw [runLoop_scanException_growth 101 loopingState rfl]
  simp [loopingState, initialState]

/-- The loop body, run on a frame, appends exactly one mark set. -/
theorem runIteration_image_counters (o : FrameOracle) (st : AppState) :
    (runIteration (.image o) st).state.markss =
        st.markss ++ [("captureWebcam" :: (processImage o).marks)] ∧
      (runIteration (.image o) st).state.frameCount = st.frameCount + 1 := by
  simp only [runIteration]
  constructor <;>
    · split <;>
        · simp only [logPerformanceMetrics, List.isEmpty_cons, Bool.false_eq_true,
            if_false]
          split <;> split <;>
            simp [(foldl_showErrorPanelOn_fields _ _).1,
              (foldl_showErrorPanelOn_fields _ _).2.1]

/-- C10 as amended: every loop iteration except one whose frame capture
throws before the capture mark appends exactly one mark set to the session
log and increments the frame counter; a capture that throws first leaves no
marks, and the early return in `logPerformanceMetrics` then skips both. -/
theorem iterationMetricsLogged (c : CaptureOutcome) (st : AppState)
    (h : ∀ msg, c ≠ CaptureOutcome.failure msg) :
    ∃ m, (runIteration c st).state.markss = st.markss ++ [m] ∧
      (runIteration c st).state.frameCount = st.frameCount + 1 := by
  cases c with
  | absent =>
      exact ⟨["captureWebcam"],
        by simp [runIteration, logPerformanceMetrics],
        by simp [runIteration, logPerformanceMetrics]⟩
  | failure msg => exact absurd rfl (h msg)
  | image o =>
      exact ⟨"captureWebcam" :: (processImage o).marks,
        (runIteration_image_counters o st).1,
        (runIteration_image_counters o st).2⟩

/-- Witness for C10 as amended, on a frame where the device has stopped. -/
theorem iterationMetricsLogged_witness :
    ∃ m, (runIteration .absent loopingState).state.markss =
        loopingState.markss ++ [m] ∧
      (runIteration .absent loopingState).state.frameCount =
        loopingState.frameCount + 1 :=
  iterationMetricsLogged .absent loopingState (fun _ h => nomatch h)

/-- C10 counterexample: an iteration whose frame capture throws records no
timing marks and does not increment the frame counter, even though the
loop yields to the scheduler and continues. -/
theorem iterationMetricsLogged_counterexample :
    (runIteration (.failure "camera read error") loopingState).state.frameCount =
        loopingState.frameCount ∧
      (runIteration (.failure "camera read error") loopingState).state.markss =
        loopingState.markss ∧
      (runIteration (.failure "camera read error") loopingState).brk = false := by
  exact ⟨rfl, rfl, rfl⟩

end SudokuBuster
